import Mathlib

/-!
Verification of the irrigation-and-placement design engine
(agronomic calculator, hydraulic engine, clustering engine,
conflict detector, placement optimizer).

Real-valued program arithmetic is embedded over the rationals.  The
numeric kernels that are irrational or iterative in the source (the
Colebrook-White solver, the Darcy-Weisbach velocity computation which
involves pi, the sklearn K-means objective, the euclidean square root)
are taken as explicit function parameters of the embedded operations;
every branch, accumulation, selection and bookkeeping step of the
source is translated literally.  Comparisons of the form
sqrt e < t in the source are rendered as the equivalent comparison on
squares (sqrt is strictly monotone on nonnegative reals), which is
noted at each site.
-/

namespace Spec2Proof

/-! ## Agronomic calculator: data model (agronomic_engine.py)

Catalog fields of PlantSpecs that no embedded operation reads
(growth_days, height_max, companion_plants, nutrient map, tolerance
flags, ...) are omitted. -/

inductive WaterNeed where
  | low
  | medium
  | high
deriving DecidableEq

inductive SunExposure where
  | full_sun
  | partial_sun
  | shade
deriving DecidableEq

structure PlantSpecs where
  name : String
  spacing_min : ℚ
  spacing_optimal : ℚ
  water_need : WaterNeed
  sun_exposure : SunExposure
  incompatible_plants : List String
deriving DecidableEq

/-- Water-availability adjustment table of calculate_optimal_spacing. -/
def waterFactor : WaterNeed → ℚ
  | .low => 1
  | .medium => 11 / 10
  | .high => 12 / 10

/-- Sun-exposure adjustment table of calculate_optimal_spacing. -/
def sunFactor : SunExposure → ℚ
  | .full_sun => 11 / 10
  | .partial_sun => 1
  | .shade => 9 / 10

/-- AgronomicCalculator.calculate_optimal_spacing:
base spacing times soil factor (0.8 + 0.4 * soil_quality), water factor
and sun factor, clamped from below by spacing_min. -/
def calculate_optimal_spacing (plant_specs : PlantSpecs) (soil_quality : ℚ) : ℚ :=
  let base_spacing := plant_specs.spacing_optimal
  let soil_factor := 8 / 10 + soil_quality * (4 / 10)
  let optimal_spacing := base_spacing * soil_factor *
    waterFactor plant_specs.water_need * sunFactor plant_specs.sun_exposure
  max optimal_spacing plant_specs.spacing_min

/-- Tomato fixture of test_agronomic_engine.py (sample_plant_specs). -/
def tomatoSpecs : PlantSpecs :=
  { name := "Tomato"
    spacing_min := 30
    spacing_optimal := 45
    water_need := .medium
    sun_exposure := .full_sun
    incompatible_plants := ["Potato", "Corn"] }

/-- C1: the spec and the repository test (test_calculate_optimal_spacing,
assertion spacing_poor > spacing_good) require spacing to be monotonically
non-increasing in soil quality, but the code multiplies by the factor
0.8 + 0.4 * soil_quality, so on the test fixture the spacing at soil
quality 0.3 is 50.094 cm, the spacing at 0.8 is 60.984 cm, and the value
strictly increases with soil quality. -/
theorem calculate_optimal_spacing_increases_in_soil_quality :
    calculate_optimal_spacing tomatoSpecs (3 / 10) = 25047 / 500 ∧
    calculate_optimal_spacing tomatoSpecs (8 / 10) = 30492 / 500 ∧
    calculate_optimal_spacing tomatoSpecs (3 / 10) <
      calculate_optimal_spacing tomatoSpecs (8 / 10) := by
  refine ⟨?_, ?_, ?_⟩ <;>
    norm_num [calculate_optimal_spacing, tomatoSpecs, waterFactor, sunFactor, max_def]

/-! ## Hydraulic engine (hydraulic_engine.py)

The Darcy-Weisbach pressure-loss kernel of the source computes a
velocity from pi and a friction factor from an iterative Colebrook-White
solve; both produce irrational reals.  The embedded network and
diameter-selection operations therefore take the kernel as an explicit
function parameter dwLoss (flow_rate_lph, diameter_m, length_m,
roughness_m to pressure_loss_bar, the first component of
calculate_pressure_loss_darcy_weisbach); everything the claims speak
about (branching, accumulation, warning emission, the scan over the
standard diameters) is translated literally. -/

inductive PipeMaterial where
  | pvc
  | pe
  | pex
  | copper
deriving DecidableEq

/-- PIPE_PROPERTIES roughness table (mm). -/
def roughness_mm : PipeMaterial → ℚ
  | .pvc => 15 / 10000
  | .pe => 7 / 1000
  | .pex => 7 / 1000
  | .copper => 15 / 10000

/-- PIPE_PROPERTIES cost table (per meter). -/
def cost_per_meter : PipeMaterial → ℚ
  | .pvc => 25 / 10
  | .pe => 32 / 10
  | .pex => 48 / 10
  | .copper => 12

/-- HydraulicEngine.calculate_friction_factor: the laminar branch returns
64 / Re; the turbulent branch runs a bounded numeric minimization of the
Colebrook-White residual (with a Swamee-Jain fallback), represented here
by the parameter solveColebrook. -/
def calculate_friction_factor (solveColebrook : ℚ → ℚ → ℚ)
    (reynolds_number relative_roughness : ℚ) : ℚ :=
  if reynolds_number < 2300 then 64 / reynolds_number
  else solveColebrook reynolds_number relative_roughness

/-- Irrigation zone record; calculate_network_hydraulics reads only the
required flow field of the schema. -/
structure IrrigationZone where
  required_flow_lph : ℚ
deriving DecidableEq

/-- Irrigation pipe record (the fields read by the hydraulic engine). -/
structure IrrigationPipe where
  id : ℕ
  material : PipeMaterial
  diameter_m : ℚ
  length_m : ℚ
  flow_rate_lph : ℚ
deriving DecidableEq

/-- Warnings emitted by calculate_network_hydraulics, tagged with the
numeric values interpolated into the source message strings. -/
inductive HWarning where
  | flowExceedsCapacity (total_flow_lph source_flow_lph : ℚ)
  | pressureBelowMinimum (final_pressure_bar : ℚ)
  | pressureCriticallyLow
deriving DecidableEq

/-- HydraulicCalculationResult; the averaged velocity, Reynolds-number
and friction-factor diagnostics (numpy means over the parametric kernel
outputs) are omitted. -/
structure HydraulicCalculationResult where
  total_flow_lph : ℚ
  total_pressure_loss_bar : ℚ
  final_pressure_bar : ℚ
  warnings : List HWarning
  is_system_viable : Bool
deriving DecidableEq

/-- HydraulicEngine.calculate_network_hydraulics: sum zone demand and
warn when it exceeds the source capacity; accumulate per-pipe losses
(major loss plus a 10 percent minor-loss surcharge); final pressure is
source pressure minus the accumulated loss; the system is viable iff the
final pressure is at least 1.0 bar, with warnings below 1.0 and 0.5 bar. -/
def calculate_network_hydraulics (dwLoss : ℚ → ℚ → ℚ → ℚ → ℚ)
    (zones : List IrrigationZone) (pipes : List IrrigationPipe)
    (source_pressure_bar source_flow_lph : ℚ) : HydraulicCalculationResult :=
  let total_flow_lph := (zones.map IrrigationZone.required_flow_lph).sum
  let warnings0 : List HWarning :=
    if source_flow_lph < total_flow_lph then
      [.flowExceedsCapacity total_flow_lph source_flow_lph]
    else []
  let total_pressure_loss := (pipes.map (fun pipe =>
    let pressure_loss_bar :=
      dwLoss pipe.flow_rate_lph pipe.diameter_m pipe.length_m (roughness_mm pipe.material / 1000)
    let minor_losses := pressure_loss_bar * (1 / 10)
    pressure_loss_bar + minor_losses)).sum
  let final_pressure := source_pressure_bar - total_pressure_loss
  let is_system_viable := decide (1 ≤ final_pressure)
  let warnings1 := warnings0 ++
    (if final_pressure < 1 then [.pressureBelowMinimum final_pressure] else [])
  let warnings2 := warnings1 ++
    (if final_pressure < 1 / 2 then [.pressureCriticallyLow] else [])
  { total_flow_lph := total_flow_lph
    total_pressure_loss_bar := total_pressure_loss
    final_pressure_bar := final_pressure
    warnings := warnings2
    is_system_viable := is_system_viable }

/-- Total per-pipe head loss as optimize_pipe_diameter computes it for a
candidate diameter in mm: the kernel loss plus the flat 10 percent
minor-loss surcharge (used to state the claims, written exactly as in
the source). -/
def totalLossAt (dwLoss : ℚ → ℚ → ℚ → ℚ → ℚ)
    (flow_rate_lph length_m roughness_m diameter_mm : ℚ) : ℚ :=
  let pressure_loss_bar := dwLoss flow_rate_lph (diameter_mm / 1000) length_m roughness_m
  let minor_losses := pressure_loss_bar * (1 / 10)
  pressure_loss_bar + minor_losses

/-- Fixed ascending list of standard pipe diameters (mm). -/
def standard_diameters : List ℚ := [13, 16, 20, 25, 32, 40, 50, 63, 75, 90, 110]

structure PipeOptimizationResult where
  optimal_diameter_mm : ℚ
  total_cost : ℚ
  pressure_loss_bar : ℚ
  material : PipeMaterial
deriving DecidableEq

/-- One step of the linear scan of optimize_pipe_diameter: the running
best is replaced when the candidate total loss is acceptable and its
cost (length times the material cost per meter, so identical for every
diameter) is strictly below the best cost so far (infinite when no best
exists yet). -/
def diameterScanStep (dwLoss : ℚ → ℚ → ℚ → ℚ → ℚ)
    (flow_rate_lph length_m roughness_m : ℚ) (material : PipeMaterial)
    (max_pressure_loss_bar : ℚ)
    (best : Option PipeOptimizationResult) (diameter_mm : ℚ) :
    Option PipeOptimizationResult :=
  let total_pressure_loss := totalLossAt dwLoss flow_rate_lph length_m roughness_m diameter_mm
  let total_cost := length_m * cost_per_meter material
  if total_pressure_loss ≤ max_pressure_loss_bar then
    match best with
    | none =>
        some { optimal_diameter_mm := diameter_mm, total_cost := total_cost,
               pressure_loss_bar := total_pressure_loss, material := material }
    | some b =>
        if total_cost < b.total_cost then
          some { optimal_diameter_mm := diameter_mm, total_cost := total_cost,
                 pressure_loss_bar := total_pressure_loss, material := material }
        else some b
  else best

/-- HydraulicEngine.optimize_pipe_diameter: linear scan over the standard
diameters, keeping the acceptable candidate of strictly smaller cost,
and failing when no candidate is acceptable. -/
def optimize_pipe_diameter (dwLoss : ℚ → ℚ → ℚ → ℚ → ℚ)
    (flow_rate_lph length_m : ℚ) (material : PipeMaterial)
    (max_pressure_loss_bar : ℚ) : Except String PipeOptimizationResult :=
  let roughness_m := roughness_mm material / 1000
  let best := standard_diameters.foldl
    (diameterScanStep dwLoss flow_rate_lph length_m roughness_m material max_pressure_loss_bar)
    none
  match best with
  | none => .error "No suitable pipe diameter found for given constraints"
  | some b => .ok b

/-- Summing a mapped list respects pointwise equality of the mapped
functions. -/
theorem list_sum_map_congr {α : Type} (l : List α) (f g : α → ℚ)
    (h : ∀ x ∈ l, f x = g x) : (l.map f).sum = (l.map g).sum := by
  induction l with
  | nil => rfl
  | cons a t ih =>
      simp only [List.map_cons, List.sum_cons]
      rw [h a (by simp), ih (fun x hx => h x (by simp [hx]))]

/-- C5: for every nonzero Reynolds number below 2300 the friction factor
is exactly 64 / Re, for every relative roughness and every behaviour of
the turbulent-branch solver (at Re = 0 the source division 64.0 / Re
raises ZeroDivisionError instead of returning, hence the nonzeroness
hypothesis). -/
theorem calculate_friction_factor_laminar (solveColebrook : ℚ → ℚ → ℚ)
    (reynolds_number relative_roughness : ℚ)
    (hne : reynolds_number ≠ 0) (hlam : reynolds_number < 2300) :
    calculate_friction_factor solveColebrook reynolds_number relative_roughness
      = 64 / reynolds_number := by
  simp [calculate_friction_factor, hlam]

/-- Witness for C5 at Re = 1000, relative roughness 1/100 and the
constant-zero solver. -/
theorem calculate_friction_factor_laminar_witness :
    (1000 : ℚ) ≠ 0 ∧ (1000 : ℚ) < 2300 ∧
    calculate_friction_factor (fun _ _ => 0) 1000 (1 / 100) = 64 / 1000 :=
  ⟨by norm_num, by norm_num,
    calculate_friction_factor_laminar (fun _ _ => 0) 1000 (1 / 100)
      (by norm_num) (by norm_num)⟩

/-- C2: the final pressure is the source pressure minus the sum over
pipes of the major loss with its 10 percent minor-loss surcharge; the
system is viable iff that final pressure is at least 1 bar; the
flow-exceeds-capacity warning is present iff total zone demand exceeds
the source flow; and viability does not depend on the zone list (hence
not on that warning). -/
theorem calculate_network_hydraulics_spec (dwLoss : ℚ → ℚ → ℚ → ℚ → ℚ)
    (zones : List IrrigationZone) (pipes : List IrrigationPipe)
    (source_pressure_bar source_flow_lph : ℚ) :
    (calculate_network_hydraulics dwLoss zones pipes source_pressure_bar source_flow_lph).final_pressure_bar
        = source_pressure_bar - (pipes.map (fun pipe =>
            dwLoss pipe.flow_rate_lph pipe.diameter_m pipe.length_m
              (roughness_mm pipe.material / 1000) * (11 / 10))).sum ∧
    ((calculate_network_hydraulics dwLoss zones pipes source_pressure_bar source_flow_lph).is_system_viable
          = true ↔
        1 ≤ source_pressure_bar - (pipes.map (fun pipe =>
            dwLoss pipe.flow_rate_lph pipe.diameter_m pipe.length_m
              (roughness_mm pipe.material / 1000) * (11 / 10))).sum) ∧
    (HWarning.flowExceedsCapacity ((zones.map IrrigationZone.required_flow_lph).sum) source_flow_lph
          ∈ (calculate_network_hydraulics dwLoss zones pipes source_pressure_bar source_flow_lph).warnings ↔
        source_flow_lph < (zones.map IrrigationZone.required_flow_lph).sum) ∧
    (∀ zones2 : List IrrigationZone,
      (calculate_network_hydraulics dwLoss zones2 pipes source_pressure_bar source_flow_lph).is_system_viable
        = (calculate_network_hydraulics dwLoss zones pipes source_pressure_bar source_flow_lph).is_system_viable) := by
  have hsum : (pipes.map (fun pipe =>
      let pressure_loss_bar :=
        dwLoss pipe.flow_rate_lph pipe.diameter_m pipe.length_m (roughness_mm pipe.material / 1000)
      let minor_losses := pressure_loss_bar * (1 / 10)
      pressure_loss_bar + minor_losses)).sum
      = (pipes.map (fun pipe =>
          dwLoss pipe.flow_rate_lph pipe.diameter_m pipe.length_m
            (roughness_mm pipe.material / 1000) * (11 / 10))).sum :=
    list_sum_map_congr pipes _ _ (fun x _ => by ring)
  refine ⟨?_, ?_, ?_, ?_⟩
  · simp only [calculate_network_hydraulics]
    rw [hsum]
  · simp only [calculate_network_hydraulics, decide_eq_true_eq]
    rw [hsum]
  · simp only [calculate_network_hydraulics, List.mem_append]
    split_ifs <;> simp_all
  · intro zones2
    simp only [calculate_network_hydraulics]

/-- Result record that the diameter scan produces for an acceptable
diameter. -/
def mkScanResult (dwLoss : ℚ → ℚ → ℚ → ℚ → ℚ)
    (flow_rate_lph length_m roughness_m : ℚ) (material : PipeMaterial)
    (diameter_mm : ℚ) : PipeOptimizationResult :=
  { optimal_diameter_mm := diameter_mm
    total_cost := length_m * cost_per_meter material
    pressure_loss_bar := totalLossAt dwLoss flow_rate_lph length_m roughness_m diameter_mm
    material := material }

/-- A running best whose cost already equals the (diameter-independent)
pipe cost is never replaced by a later scan step, since replacement
demands a strictly smaller cost. -/
theorem diameterScanStep_some_fixed (dwLoss : ℚ → ℚ → ℚ → ℚ → ℚ)
    (flow_rate_lph length_m roughness_m : ℚ) (material : PipeMaterial)
    (max_pressure_loss_bar : ℚ) (b : PipeOptimizationResult)
    (hb : b.total_cost = length_m * cost_per_meter material) (d : ℚ) :
    diameterScanStep dwLoss flow_rate_lph length_m roughness_m material
      max_pressure_loss_bar (some b) d = some b := by
  simp only [diameterScanStep]
  rw [hb]
  simp

/-- Folding the scan from a best of the fixed cost leaves it unchanged. -/
theorem foldl_scan_some_fixed (dwLoss : ℚ → ℚ → ℚ → ℚ → ℚ)
    (flow_rate_lph length_m roughness_m : ℚ) (material : PipeMaterial)
    (max_pressure_loss_bar : ℚ) (b : PipeOptimizationResult)
    (hb : b.total_cost = length_m * cost_per_meter material) :
    ∀ l : List ℚ, l.foldl
      (diameterScanStep dwLoss flow_rate_lph length_m roughness_m material max_pressure_loss_bar)
      (some b) = some b := by
  intro l
  induction l with
  | nil => rfl
  | cons d t ih =>
      simp only [List.foldl_cons,
        diameterScanStep_some_fixed dwLoss flow_rate_lph length_m roughness_m material
          max_pressure_loss_bar b hb d, ih]

/-- The diameter scan started from no best returns the first acceptable
diameter of the list, packaged as a scan result. -/
theorem foldl_scan_eq_find (dwLoss : ℚ → ℚ → ℚ → ℚ → ℚ)
    (flow_rate_lph length_m roughness_m : ℚ) (material : PipeMaterial)
    (max_pressure_loss_bar : ℚ) :
    ∀ l : List ℚ, l.foldl
      (diameterScanStep dwLoss flow_rate_lph length_m roughness_m material max_pressure_loss_bar)
      none
      = (l.find? (fun d => decide (totalLossAt dwLoss flow_rate_lph length_m roughness_m d
          ≤ max_pressure_loss_bar))).map
          (mkScanResult dwLoss flow_rate_lph length_m roughness_m material) := by
  intro l
  induction l with
  | nil => rfl
  | cons d t ih =>
      by_cases h : totalLossAt dwLoss flow_rate_lph length_m roughness_m d ≤ max_pressure_loss_bar
      · rw [List.foldl_cons, List.find?_cons_of_pos _ (by simpa using h)]
        have hstep : diameterScanStep dwLoss flow_rate_lph length_m roughness_m material
            max_pressure_loss_bar none d
            = some (mkScanResult dwLoss flow_rate_lph length_m roughness_m material d) := by
          unfold diameterScanStep mkScanResult
          rw [if_pos h]
        rw [hstep,
          foldl_scan_some_fixed dwLoss flow_rate_lph length_m roughness_m material
            max_pressure_loss_bar _ rfl t]
        rfl
      · rw [List.foldl_cons, List.find?_cons_of_neg _ (by simpa using h)]
        have hstep : diameterScanStep dwLoss flow_rate_lph length_m roughness_m material
            max_pressure_loss_bar none d = none := by
          unfold diameterScanStep
          rw [if_neg h]
        rw [hstep, ih]

/-- In a strictly ascending list, every element preceding the first one
satisfying the predicate fails the predicate; in particular the first
hit is minimal among the hits. -/
theorem find_first_in_sorted {p : ℚ → Bool} :
    ∀ l : List ℚ, l.Pairwise (· < ·) → ∀ res, l.find? p = some res →
      ∀ d ∈ l, d < res → p d = false := by
  intro l
  induction l with
  | nil => intro _ res h; simp at h
  | cons a t ih =>
      intro hpw res hfind d hd hlt
      rcases List.pairwise_cons.mp hpw with ⟨ha, hpt⟩
      by_cases hpa : p a = true
      · rw [List.find?_cons_of_pos _ hpa] at hfind
        obtain rfl : a = res := by injection hfind
        rcases List.mem_cons.mp hd with rfl | hdt
        · exact absurd hlt (lt_irrefl _)
        · exact absurd hlt (not_lt_of_gt (ha d hdt))
      · rw [List.find?_cons_of_neg _ hpa] at hfind
        rcases List.mem_cons.mp hd with rfl | hdt
        · exact Bool.eq_false_iff.mpr hpa
        · exact ih hpt res hfind d hdt hlt

/-- C3: whenever optimize_pipe_diameter succeeds it returns a diameter
from the fixed standard list whose major loss with its 10 percent
surcharge is within the budget, with the diameter-independent cost and
the stored loss, and every strictly smaller listed diameter exceeds the
budget; it fails with the no-suitable-diameter error exactly when every
listed diameter exceeds the budget. -/
theorem optimize_pipe_diameter_minimal (dwLoss : ℚ → ℚ → ℚ → ℚ → ℚ)
    (flow_rate_lph length_m : ℚ) (material : PipeMaterial)
    (max_pressure_loss_bar : ℚ) :
    (∀ res, optimize_pipe_diameter dwLoss flow_rate_lph length_m material max_pressure_loss_bar
        = .ok res →
      res.optimal_diameter_mm ∈ standard_diameters ∧
      totalLossAt dwLoss flow_rate_lph length_m (roughness_mm material / 1000)
          res.optimal_diameter_mm ≤ max_pressure_loss_bar ∧
      res.pressure_loss_bar
          = totalLossAt dwLoss flow_rate_lph length_m (roughness_mm material / 1000)
              res.optimal_diameter_mm ∧
      res.total_cost = length_m * cost_per_meter material ∧
      (∀ d ∈ standard_diameters, d < res.optimal_diameter_mm →
        max_pressure_loss_bar
          < totalLossAt dwLoss flow_rate_lph length_m (roughness_mm material / 1000) d)) ∧
    (optimize_pipe_diameter dwLoss flow_rate_lph length_m material max_pressure_loss_bar
        = .error "No suitable pipe diameter found for given constraints" ↔
      ∀ d ∈ standard_diameters,
        max_pressure_loss_bar
          < totalLossAt dwLoss flow_rate_lph length_m (roughness_mm material / 1000) d) := by
  have hsorted : standard_diameters.Pairwise (· < ·) := by
    norm_num [standard_diameters]
  have hunfold : optimize_pipe_diameter dwLoss flow_rate_lph length_m material max_pressure_loss_bar
      = match (standard_diameters.find? (fun d =>
          decide (totalLossAt dwLoss flow_rate_lph length_m (roughness_mm material / 1000) d
            ≤ max_pressure_loss_bar))).map
          (mkScanResult dwLoss flow_rate_lph length_m (roughness_mm material / 1000) material) with
        | none => .error "No suitable pipe diameter found for given constraints"
        | some b => .ok b := by
    simp only [optimize_pipe_diameter]
    rw [foldl_scan_eq_find]
  rcases hfind : standard_diameters.find? (fun d =>
      decide (totalLossAt dwLoss flow_rate_lph length_m (roughness_mm material / 1000) d
        ≤ max_pressure_loss_bar)) with _ | d0
  · refine ⟨?_, ?_⟩
    · intro res hres
      rw [hunfold, hfind] at hres
      exact Except.noConfusion hres
    · rw [hunfold, hfind]
      refine iff_of_true rfl ?_
      intro d hd
      have hnot := List.find?_eq_none.mp hfind d hd
      exact lt_of_not_le (by simpa using hnot)
  · have hmem : d0 ∈ standard_diameters := List.mem_of_find?_eq_some hfind
    have hacc : totalLossAt dwLoss flow_rate_lph length_m (roughness_mm material / 1000) d0
        ≤ max_pressure_loss_bar := by
      have := List.find?_some hfind
      simpa using this
    refine ⟨?_, ?_⟩
    · intro res hres
      rw [hunfold, hfind] at hres
      obtain rfl : mkScanResult dwLoss flow_rate_lph length_m
          (roughness_mm material / 1000) material d0 = res := by
        simpa using hres
      refine ⟨hmem, hacc, rfl, rfl, ?_⟩
      intro d hd hlt
      have hfalse := find_first_in_sorted standard_diameters hsorted d0 hfind d hd hlt
      have : ¬ totalLossAt dwLoss flow_rate_lph length_m (roughness_mm material / 1000) d
          ≤ max_pressure_loss_bar := by
        simpa using hfalse
      exact lt_of_not_le this
    · rw [hunfold, hfind]
      constructor
      · intro h
        exact absurd h (by simp)
      · intro hall
        exact absurd hacc (not_le_of_lt (hall d0 hmem))

/-- Loss kernel used to witness the diameter-selection theorem: heavy
loss below 25 mm, light loss from 25 mm up. -/
def scanWitnessLoss : ℚ → ℚ → ℚ → ℚ → ℚ :=
  fun _ diameter_m _ _ => if diameter_m < 25 / 1000 then 10 else 1 / 10

/-- Witness for C3: with the witness kernel, flow 1000 LPH, length 50 m,
PVC and a 0.5 bar budget, the scan returns 25 mm, which is acceptable
while the smaller listed diameter 20 mm is not. -/
theorem optimize_pipe_diameter_minimal_witness :
    optimize_pipe_diameter scanWitnessLoss 1000 50 .pvc (1 / 2)
      = .ok { optimal_diameter_mm := 25, total_cost := 125,
              pressure_loss_bar := 11 / 100, material := .pvc } ∧
    (25 : ℚ) ∈ standard_diameters ∧
    totalLossAt scanWitnessLoss 1000 50 (roughness_mm .pvc / 1000) 25 ≤ 1 / 2 ∧
    (1 / 2 : ℚ) < totalLossAt scanWitnessLoss 1000 50 (roughness_mm .pvc / 1000) 20 := by
  have h : optimize_pipe_diameter scanWitnessLoss 1000 50 .pvc (1 / 2)
      = .ok { optimal_diameter_mm := 25, total_cost := 125,
              pressure_loss_bar := 11 / 100, material := .pvc } := by
    with_unfolding_all rfl
  have hspec := (optimize_pipe_diameter_minimal scanWitnessLoss 1000 50 .pvc (1 / 2)).1 _ h
  exact ⟨h, hspec.1, hspec.2.1,
    hspec.2.2.2.2 20 (by norm_num [standard_diameters]) (by norm_num)⟩

/-! ## Placement optimizer (agronomic_engine.py, PlacementOptimizer)

The placement record keeps the fields the embedded operations read;
planted date, growth stage and the stress scores are omitted.  The
source compares math.sqrt of a sum of squares against positive
constants; each such comparison is embedded as the equivalent
comparison of the squared distance against the squared constant. -/

structure PlantPlacement where
  plant_id : String
  plant_specs : PlantSpecs
  x : ℚ
  y : ℚ
deriving DecidableEq

/-- Squared euclidean distance between two placements (the source takes
math.sqrt of this sum; every comparison sqrt s < c against a positive
constant c is embedded as s < c * c). -/
def distSq (p q : PlantPlacement) : ℚ :=
  (p.x - q.x) * (p.x - q.x) + (p.y - q.y) * (p.y - q.y)

/-- Best-ever tracking state of optimize_placement_genetic: best_fitness
starts at negative infinity (WithBot bottom), best_solution at none. -/
structure GAState where
  best_fitness : WithBot ℚ
  best_solution : Option (List PlantPlacement)

def initialGAState : GAState := { best_fitness := ⊥, best_solution := none }

/-- Inner update of optimize_placement_genetic for one individual: when
the fitness strictly exceeds the tracked best, both the best fitness and
the best solution (a copy of the individual) are replaced.  The fitness
function (whose value involves euclidean distances) is a parameter. -/
def updateBest (fitness : List PlantPlacement → ℚ) (st : GAState)
    (individual : List PlantPlacement) : GAState :=
  if st.best_fitness < (fitness individual : WithBot ℚ) then
    { best_fitness := (fitness individual : WithBot ℚ), best_solution := some individual }
  else st

/-- One generation of the loop: every individual of the realized
population is scored and folded into the tracked best. -/
def evalGeneration (fitness : List PlantPlacement → ℚ) (st : GAState)
    (population : List (List PlantPlacement)) : GAState :=
  population.foldl (updateBest fitness) st

/-- The generation loop of optimize_placement_genetic, folded over the
populations realized by the random selection, crossover and mutation
steps (which do not touch the tracked best). -/
def runGA (fitness : List PlantPlacement → ℚ) (st : GAState)
    (generations : List (List (List PlantPlacement))) : GAState :=
  generations.foldl (evalGeneration fitness) st

/-- A single best-tracking update never decreases the best fitness. -/
theorem updateBest_mono (fitness : List PlantPlacement → ℚ) (st : GAState)
    (individual : List PlantPlacement) :
    st.best_fitness ≤ (updateBest fitness st individual).best_fitness := by
  unfold updateBest
  split
  · exact le_of_lt (by assumption)
  · exact le_refl _

/-- Scoring a whole generation never decreases the best fitness. -/
theorem evalGeneration_mono (fitness : List PlantPlacement → ℚ)
    (population : List (List PlantPlacement)) : ∀ st : GAState,
    st.best_fitness ≤ (evalGeneration fitness st population).best_fitness := by
  induction population with
  | nil => intro st; exact le_refl _
  | cons ind t ih =>
      intro st
      exact le_trans (updateBest_mono fitness st ind) (ih (updateBest fitness st ind))

/-- C8: along any run of the genetic optimizer, the tracked best-ever
fitness after any number of generations is less than or equal to its
value after one more generation. -/
theorem runGA_best_fitness_monotone (fitness : List PlantPlacement → ℚ)
    (generations : List (List (List PlantPlacement))) (n : ℕ) :
    (runGA fitness initialGAState (generations.take n)).best_fitness
      ≤ (runGA fitness initialGAState (generations.take (n + 1))).best_fitness := by
  rw [List.take_succ]
  unfold runGA
  rw [List.foldl_append]
  rcases generations[n]? with _ | g
  · exact le_refl _
  · exact evalGeneration_mono fitness g _

/-! ## Conflict detector (agronomic_engine.py, ConflictDetector)

The zone-membership test _is_in_zone compares a euclidean distance with
sqrt(area / pi); because pi is irrational the test is taken as the
function parameter inZone.  All four conflict categories are embedded. -/

structure GardenZone where
  id : String
  area : ℚ
  coordinates : ℚ × ℚ
deriving DecidableEq

/-- Comparison sqrt dsq < threshold on reals, for dsq nonnegative,
rendered on squares: it holds iff the threshold is positive and dsq is
below its square. -/
def sqrtLtQ (dsq threshold : ℚ) : Bool :=
  decide (0 < threshold) && decide (dsq < threshold * threshold)

/-- Spacing-violation record; current_distance is stored squared. -/
structure SpacingViolation where
  plant1 : String
  plant2 : String
  current_distance_sq : ℚ
  required_distance : ℚ
  severity_high : Bool
deriving DecidableEq

/-- Spacing-violation pass of detect_conflicts: every ordered pair at
squared distance below the squared optimal spacing (computed at soil
quality 0.7 and converted from cm to m) is recorded, severity high when
the distance is below half the required spacing. -/
def spacingViolationsList : List PlantPlacement → List SpacingViolation
  | [] => []
  | placement1 :: rest =>
      (rest.filter (fun placement2 =>
        sqrtLtQ (distSq placement1 placement2)
          (calculate_optimal_spacing placement1.plant_specs (7 / 10) / 100))).map
        (fun placement2 =>
          { plant1 := placement1.plant_id
            plant2 := placement2.plant_id
            current_distance_sq := distSq placement1 placement2
            required_distance := calculate_optimal_spacing placement1.plant_specs (7 / 10) / 100
            severity_high := sqrtLtQ (distSq placement1 placement2)
              (calculate_optimal_spacing placement1.plant_specs (7 / 10) / 100 * (5 / 10)) })
      ++ spacingViolationsList rest

/-- Compatibility-violation record; the severity field is the constant
high in the source and is omitted; distance is stored squared. -/
structure CompatibilityViolation where
  plant1 : String
  plant2 : String
  distance_sq : ℚ
deriving DecidableEq

/-- Compatibility pass of detect_conflicts: an ordered pair is recorded
when either plant names the other as incompatible and the distance is
below 2 m (squared distance below 4). -/
def compatViolationsList : List PlantPlacement → List CompatibilityViolation
  | [] => []
  | placement1 :: rest =>
      (rest.filter (fun placement2 =>
        (decide (placement2.plant_specs.name ∈ placement1.plant_specs.incompatible_plants) ||
         decide (placement1.plant_specs.name ∈ placement2.plant_specs.incompatible_plants)) &&
        decide (distSq placement1 placement2 < 4))).map
        (fun placement2 =>
          { plant1 := placement1.plant_id
            plant2 := placement2.plant_id
            distance_sq := distSq placement1 placement2 })
      ++ compatViolationsList rest

structure ZoneViolation where
  plant_id : String
  position : ℚ × ℚ
deriving DecidableEq

/-- Water-competition record of _detect_water_conflicts; the constant
type, severity and description strings are omitted. -/
structure WaterConflict where
  plants : List String
deriving DecidableEq

/-- ConflictDetector._detect_water_conflicts: for each placement, the
ids of the placements strictly later in the list that are within 1 m
while both plants are high-water-need are collected, and a conflict
naming the placement followed by those ids is recorded when more than
two were collected. -/
def detect_water_conflicts : List PlantPlacement → List WaterConflict
  | [] => []
  | placement1 :: rest =>
      let high_water_plants := (rest.filter (fun placement2 =>
        decide (distSq placement1 placement2 < 1) &&
        decide (placement1.plant_specs.water_need = WaterNeed.high) &&
        decide (placement2.plant_specs.water_need = WaterNeed.high))).map
          PlantPlacement.plant_id
      (if 2 < high_water_plants.length then
        [{ plants := placement1.plant_id :: high_water_plants }]
       else [])
      ++ detect_water_conflicts rest

/-- Conflict report with the four categories of detect_conflicts. -/
structure ConflictReport where
  spacing_violations : List SpacingViolation
  compatibility_violations : List CompatibilityViolation
  zone_violations : List ZoneViolation
  resource_conflicts : List WaterConflict
deriving DecidableEq

/-- ConflictDetector.detect_conflicts: the four passes assembled; a zone
violation is recorded for every placement inside no garden zone. -/
def detect_conflicts (inZone : PlantPlacement → GardenZone → Bool)
    (placements : List PlantPlacement) (garden_zones : List GardenZone) :
    ConflictReport :=
  { spacing_violations := spacingViolationsList placements
    compatibility_violations := compatViolationsList placements
    zone_violations := (placements.filter
      (fun placement => ! garden_zones.any (fun zone => inZone placement zone))).map
      (fun placement => { plant_id := placement.plant_id, position := (placement.x, placement.y) })
    resource_conflicts := detect_water_conflicts placements }

/-- Plant specs fixtures for the conflict-detector results. -/
def lowSpecs : PlantSpecs :=
  { name := "LowPlant", spacing_min := 10, spacing_optimal := 20,
    water_need := .low, sun_exposure := .partial_sun, incompatible_plants := [] }

def highSpecs : PlantSpecs :=
  { name := "HighPlant", spacing_min := 10, spacing_optimal := 20,
    water_need := .high, sun_exposure := .partial_sun, incompatible_plants := [] }

def lowPlantOrigin : PlantPlacement :=
  { plant_id := "low0", plant_specs := lowSpecs, x := 0, y := 0 }

def highPlantAt (id : String) : PlantPlacement :=
  { plant_id := id, plant_specs := highSpecs, x := 0, y := 0 }

/-- A low-water plant surrounded by three coincident high-water
plants. -/
def waterCounterPlacements : List PlantPlacement :=
  [lowPlantOrigin, highPlantAt "high1", highPlantAt "high2", highPlantAt "high3"]

/-- C6 counterexample: the first placement has three other high-water
plants within 1 m (so the claim demands a water-competition conflict
involving it, regardless of its own low tier), yet detect_conflicts
records no resource conflict at all: the code requires the anchor plant
itself to be high-water-need and only scans placements later in the
list. -/
theorem detect_water_conflicts_counterexample :
    2 < ((waterCounterPlacements.filter (fun q =>
        decide (q.plant_id ≠ lowPlantOrigin.plant_id) &&
        decide (q.plant_specs.water_need = WaterNeed.high) &&
        decide (distSq lowPlantOrigin q < 1))).length) ∧
    lowPlantOrigin ∈ waterCounterPlacements ∧
    lowPlantOrigin.plant_specs.water_need ≠ WaterNeed.high ∧
    (detect_conflicts (fun _ _ => false) waterCounterPlacements []).resource_conflicts
      = [] := by
  with_unfolding_all decide

/-- Ids of the high-water placements of a suffix lying within 1 m of a
given placement (the reading of the claim restricted to later
placements, used to state the amended C6). -/
def laterHighIds (p : PlantPlacement) (later : List PlantPlacement) : List String :=
  (later.filter (fun q =>
    decide (q.plant_specs.water_need = WaterNeed.high) &&
    decide (distSq p q < 1))).map PlantPlacement.plant_id

/-- For a high-water anchor plant, the filter of the source coincides
with the later-high-neighbor ids of the amended claim. -/
theorem water_filter_eq (p : PlantPlacement)
    (hp : p.plant_specs.water_need = WaterNeed.high) (l : List PlantPlacement) :
    ((l.filter (fun q =>
      decide (distSq p q < 1) &&
      decide (p.plant_specs.water_need = WaterNeed.high) &&
      decide (q.plant_specs.water_need = WaterNeed.high))).map PlantPlacement.plant_id)
      = laterHighIds p l := by
  unfold laterHighIds
  congr 1
  apply List.filter_congr
  intro q _
  cases hq : decide (q.plant_specs.water_need = WaterNeed.high) <;>
    cases hd : decide (distSq p q < 1) <;> simp [hp, hq, hd]

/-- For an anchor plant that is not high-water, the filter of the source
is empty. -/
theorem water_filter_not_high (p : PlantPlacement)
    (hp : ¬ p.plant_specs.water_need = WaterNeed.high) (l : List PlantPlacement) :
    l.filter (fun q =>
      decide (distSq p q < 1) &&
      decide (p.plant_specs.water_need = WaterNeed.high) &&
      decide (q.plant_specs.water_need = WaterNeed.high)) = [] := by
  rw [List.filter_eq_nil_iff]
  intro q _
  simp [hp]

/-- C6 amended: detect_conflicts records a water-competition resource
conflict exactly for the placements that are themselves high-water-need
and have more than two high-water-need placements later in the input
list within 1 m, and each conflict names that placement's id followed by
those later placements' ids in list order. -/
theorem detect_water_conflicts_characterization
    (inZone : PlantPlacement → GardenZone → Bool) (garden_zones : List GardenZone)
    (placements : List PlantPlacement) :
    (∀ i, ∀ h : i < placements.length,
      (placements.get ⟨i, h⟩).plant_specs.water_need = WaterNeed.high →
      2 < (laterHighIds (placements.get ⟨i, h⟩) (placements.drop (i + 1))).length →
      ({ plants := (placements.get ⟨i, h⟩).plant_id ::
          laterHighIds (placements.get ⟨i, h⟩) (placements.drop (i + 1)) } : WaterConflict)
        ∈ (detect_conflicts inZone placements garden_zones).resource_conflicts) ∧
    (∀ c ∈ (detect_conflicts inZone placements garden_zones).resource_conflicts,
      ∃ i, ∃ h : i < placements.length,
        (placements.get ⟨i, h⟩).plant_specs.water_need = WaterNeed.high ∧
        2 < (laterHighIds (placements.get ⟨i, h⟩) (placements.drop (i + 1))).length ∧
        c = { plants := (placements.get ⟨i, h⟩).plant_id ::
          laterHighIds (placements.get ⟨i, h⟩) (placements.drop (i + 1)) }) := by
  show (∀ i, ∀ h : i < placements.length, _) ∧ _
  constructor
  · intro i h
    induction placements generalizing i with
    | nil => exact absurd h (Nat.not_lt_zero i)
    | cons placement1 rest ih =>
        cases i with
        | zero =>
            intro hp hlen
            show _ ∈ detect_water_conflicts (placement1 :: rest)
            simp only [detect_water_conflicts]
            rw [water_filter_eq placement1 hp rest]
            rw [if_pos (by exact hlen)]
            exact List.mem_append_left _ (List.mem_singleton_self _)
        | succ i2 =>
            intro hp hlen
            show _ ∈ detect_water_conflicts (placement1 :: rest)
            simp only [detect_water_conflicts]
            refine List.mem_append_right _ ?_
            exact ih i2 (Nat.lt_of_succ_lt_succ h) hp hlen
  · intro c hc
    induction placements with
    | nil => exact absurd hc (by simp [detect_conflicts, detect_water_conflicts])
    | cons placement1 rest ih =>
        have hc2 : c ∈ (if 2 < ((rest.filter (fun placement2 =>
            decide (distSq placement1 placement2 < 1) &&
            decide (placement1.plant_specs.water_need = WaterNeed.high) &&
            decide (placement2.plant_specs.water_need = WaterNeed.high))).map
              PlantPlacement.plant_id).length then
            [{ plants := placement1.plant_id :: (rest.filter (fun placement2 =>
              decide (distSq placement1 placement2 < 1) &&
              decide (placement1.plant_specs.water_need = WaterNeed.high) &&
              decide (placement2.plant_specs.water_need = WaterNeed.high))).map
                PlantPlacement.plant_id }]
           else []) ++ detect_water_conflicts rest := hc
        rcases List.mem_append.mp hc2 with hhead | htail
        · by_cases hp : placement1.plant_specs.water_need = WaterNeed.high
          · rw [water_filter_eq placement1 hp rest] at hhead
            by_cases hlen : 2 < (laterHighIds placement1 rest).length
            · rw [if_pos hlen] at hhead
              refine ⟨0, Nat.succ_pos _, hp, hlen, ?_⟩
              simpa using hhead
            · rw [if_neg hlen] at hhead
              exact absurd hhead (List.not_mem_nil c)
          · rw [water_filter_not_high placement1 hp rest] at hhead
            simp at hhead
        · obtain ⟨i, h, hih, hlen, hceq⟩ := ih htail
          exact ⟨i + 1, Nat.succ_lt_succ h, hih, hlen, hceq⟩

/-- Four coincident high-water plants, used to witness the amended C6. -/
def fourHighPlacements : List PlantPlacement :=
  [highPlantAt "g1", highPlantAt "g2", highPlantAt "g3", highPlantAt "g4"]

/-- Positivity of the length of the four-plant witness list. -/
theorem fourHigh_len_pos : 0 < fourHighPlacements.length := by
  with_unfolding_all decide

/-- Witness for the amended C6: the first of four coincident high-water
plants gets a water-competition conflict naming all four ids. -/
theorem detect_water_conflicts_characterization_witness :
    ({ plants := ["g1", "g2", "g3", "g4"] } : WaterConflict)
      ∈ (detect_conflicts (fun _ _ => false) fourHighPlacements []).resource_conflicts := by
  have h := (detect_water_conflicts_characterization (fun _ _ => false) []
    fourHighPlacements).1 0 fourHigh_len_pos
    (by with_unfolding_all decide) (by with_unfolding_all decide)
  have he : WaterConflict.mk ((fourHighPlacements.get ⟨0, fourHigh_len_pos⟩).plant_id ::
      laterHighIds (fourHighPlacements.get ⟨0, fourHigh_len_pos⟩)
        (fourHighPlacements.drop (0 + 1)))
      = WaterConflict.mk ["g1", "g2", "g3", "g4"] := by
    with_unfolding_all decide
  exact he ▸ h

/-- First components of the compatibility records always come from the
scanned list. -/
theorem compat_plant1_mem : ∀ (placements : List PlantPlacement)
    (v : CompatibilityViolation), v ∈ compatViolationsList placements →
    v.plant1 ∈ placements.map PlantPlacement.plant_id := by
  intro placements
  induction placements with
  | nil => intro v hv; simp [compatViolationsList] at hv
  | cons placement1 rest ih =>
      intro v hv
      rcases List.mem_append.mp hv with hh | ht
      · rcases List.mem_map.mp hh with ⟨q, _, hqe⟩
        rw [← hqe]
        simp
      · exact List.mem_cons_of_mem _ (ih v ht)

/-- C7: a pair of placements (positions i < j, distinct plant ids)
appears in compatibility_violations if and only if either plant names
the other as incompatible and their squared distance is below 4 (that
is, their euclidean distance is below 2 m). -/
theorem detect_conflicts_compatibility_iff
    (inZone : PlantPlacement → GardenZone → Bool) (garden_zones : List GardenZone)
    (placements : List PlantPlacement)
    (hnd : (placements.map PlantPlacement.plant_id).Nodup)
    (i j : ℕ) (hij : i < j) (hj : j < placements.length) :
    (({ plant1 := (placements.get ⟨i, lt_trans hij hj⟩).plant_id
        plant2 := (placements.get ⟨j, hj⟩).plant_id
        distance_sq := distSq (placements.get ⟨i, lt_trans hij hj⟩) (placements.get ⟨j, hj⟩) } :
        CompatibilityViolation)
      ∈ (detect_conflicts inZone placements garden_zones).compatibility_violations) ↔
    (((placements.get ⟨j, hj⟩).plant_specs.name
        ∈ (placements.get ⟨i, lt_trans hij hj⟩).plant_specs.incompatible_plants ∨
      (placements.get ⟨i, lt_trans hij hj⟩).plant_specs.name
        ∈ (placements.get ⟨j, hj⟩).plant_specs.incompatible_plants) ∧
      distSq (placements.get ⟨i, lt_trans hij hj⟩) (placements.get ⟨j, hj⟩) < 4) := by
  show _ ∈ compatViolationsList placements ↔ _
  induction placements generalizing i j with
  | nil => exact absurd hj (Nat.not_lt_zero j)
  | cons placement1 rest ih =>
      have hnd1 : placement1.plant_id ∉ rest.map PlantPlacement.plant_id :=
        (List.nodup_cons.mp hnd).1
      have hndr : (rest.map PlantPlacement.plant_id).Nodup := (List.nodup_cons.mp hnd).2
      cases i with
      | zero =>
          cases j with
          | zero => exact absurd hij (lt_irrefl 0)
          | succ j2 =>
              have hj2 : j2 < rest.length := Nat.lt_of_succ_lt_succ hj
              constructor
              · intro hmem
                rcases List.mem_append.mp hmem with hh | ht
                · rcases List.mem_map.mp hh with ⟨q, hqf, hqe⟩
                  rcases List.mem_filter.mp hqf with ⟨hqmem, hcond⟩
                  have hid : q.plant_id = (rest.get ⟨j2, hj2⟩).plant_id := by
                    have := congrArg CompatibilityViolation.plant2 hqe
                    simpa using this
                  have hq_eq : q = rest.get ⟨j2, hj2⟩ :=
                    List.inj_on_of_nodup_map hndr hqmem (List.get_mem rest j2 hj2) hid
                  rw [hq_eq] at hcond
                  simpa using hcond
                · exfalso
                  have h1 := compat_plant1_mem rest _ ht
                  simp only at h1
                  exact hnd1 h1
              · intro hcond
                apply List.mem_append_left
                apply List.mem_map.mpr
                refine ⟨rest.get ⟨j2, hj2⟩,
                  List.mem_filter.mpr ⟨List.get_mem rest j2 hj2, ?_⟩, rfl⟩
                simpa using hcond
      | succ i2 =>
          cases j with
          | zero => exact absurd hij (Nat.not_lt_zero _)
          | succ j2 =>
              have hij2 : i2 < j2 := Nat.lt_of_succ_lt_succ hij
              have hj2 : j2 < rest.length := Nat.lt_of_succ_lt_succ hj
              constructor
              · intro hmem
                rcases List.mem_append.mp hmem with hh | ht
                · exfalso
                  rcases List.mem_map.mp hh with ⟨q, _, hqe⟩
                  have hid := congrArg CompatibilityViolation.plant1 hqe
                  simp only at hid
                  apply hnd1
                  rw [hid]
                  exact List.mem_map.mpr ⟨rest.get ⟨i2, lt_trans hij2 hj2⟩,
                    List.get_mem rest i2 (lt_trans hij2 hj2), rfl⟩
                · exact (ih hndr i2 j2 hij2 hj2).mp ht
              · intro hcond
                exact List.mem_append_right _ ((ih hndr i2 j2 hij2 hj2).mpr hcond)

/-- Garden zone of 100 square meters at the origin for the C7 witness. -/
def mainZone : GardenZone := { id := "zone1", area := 100, coordinates := (0, 0) }

def potatoSpecs : PlantSpecs :=
  { name := "Potato", spacing_min := 25, spacing_optimal := 40,
    water_need := .medium, sun_exposure := .full_sun, incompatible_plants := ["Tomato"] }

def tomatoPlacementA : PlantPlacement :=
  { plant_id := "tomato1", plant_specs := tomatoSpecs, x := 0, y := 0 }

def potatoNear : PlantPlacement :=
  { plant_id := "potato1", plant_specs := potatoSpecs, x := 1 / 2, y := 0 }

def potatoFar : PlantPlacement :=
  { plant_id := "potato2", plant_specs := potatoSpecs, x := 3, y := 0 }

def nearPair : List PlantPlacement := [tomatoPlacementA, potatoNear]

def farPair : List PlantPlacement := [tomatoPlacementA, potatoFar]

theorem nearPair_lt : 1 < nearPair.length := by with_unfolding_all decide

theorem farPair_lt : 1 < farPair.length := by with_unfolding_all decide

/-- Witness for C7: the mutually incompatible tomato and potato 0.5 m
apart inside a valid zone appear in compatibility_violations, and the
same pair 3 m apart does not. -/
theorem detect_conflicts_compatibility_iff_witness :
    (CompatibilityViolation.mk "tomato1" "potato1" (distSq tomatoPlacementA potatoNear)
      ∈ (detect_conflicts (fun _ _ => true) nearPair [mainZone]).compatibility_violations) ∧
    CompatibilityViolation.mk "tomato1" "potato2" (distSq tomatoPlacementA potatoFar)
      ∉ (detect_conflicts (fun _ _ => true) farPair [mainZone]).compatibility_violations := by
  constructor
  · have heq : CompatibilityViolation.mk
        (nearPair.get ⟨0, lt_trans Nat.one_pos nearPair_lt⟩).plant_id
        (nearPair.get ⟨1, nearPair_lt⟩).plant_id
        (distSq (nearPair.get ⟨0, lt_trans Nat.one_pos nearPair_lt⟩)
          (nearPair.get ⟨1, nearPair_lt⟩))
        = CompatibilityViolation.mk "tomato1" "potato1" (distSq tomatoPlacementA potatoNear) := by
      with_unfolding_all decide
    have h := (detect_conflicts_compatibility_iff (fun _ _ => true) [mainZone] nearPair
      (by with_unfolding_all decide) 0 1 Nat.one_pos nearPair_lt).mpr
      (by with_unfolding_all decide)
    exact heq ▸ h
  · intro hmem
    have heq : CompatibilityViolation.mk
        (farPair.get ⟨0, lt_trans Nat.one_pos farPair_lt⟩).plant_id
        (farPair.get ⟨1, farPair_lt⟩).plant_id
        (distSq (farPair.get ⟨0, lt_trans Nat.one_pos farPair_lt⟩)
          (farPair.get ⟨1, farPair_lt⟩))
        = CompatibilityViolation.mk "tomato1" "potato2" (distSq tomatoPlacementA potatoFar) := by
      with_unfolding_all decide
    have h := (detect_conflicts_compatibility_iff (fun _ _ => true) [mainZone] farPair
      (by with_unfolding_all decide) 0 1 Nat.one_pos farPair_lt).mp (heq.symm ▸ hmem)
    revert h
    with_unfolding_all decide

/-! ## Clustering engine (clustering_engine.py)

The sklearn K-means fit (random_state 42) and the silhouette score are
numeric kernels over the feature matrix; they enter the embedding as
the function parameters kmeansLabels (labels per candidate cluster
count), silhouette (score per candidate count) and ok (whether the try
body of a candidate count runs without raising, covering the sklearn
exceptions the source catches and skips).  The source returns the pair
(clusters, centers); the embedding returns the clusters component, the
centers being kernel outputs. -/

structure PlantData where
  plant_id : ℕ
  x : ℚ
  y : ℚ
  water_needs : String
  area_m2 : ℚ
  growth_stage : String
  crop_coefficient : ℚ
deriving DecidableEq

/-- Check of kmeans_clustering that every cluster present in the
labelling has at least the minimum number of members (np.unique counts
present labels only). -/
def countsOK (labels : List ℕ) (min_plants_per_zone : ℕ) : Bool :=
  labels.all (fun l => decide (min_plants_per_zone ≤ labels.count l))

/-- One candidate cluster count of the selection loop: when the try body
succeeds, every present cluster meets the minimum and the score (the
silhouette for more than one cluster, 0 otherwise) strictly beats the
best so far (initially -1), the candidate labelling is adopted. -/
def candidateStep (kmeansLabels : ℕ → List ℕ) (silhouette : ℕ → ℚ) (ok : ℕ → Bool)
    (min_plants_per_zone : ℕ) (st : ℚ × Option (List ℕ × ℕ)) (n_clusters : ℕ) :
    ℚ × Option (List ℕ × ℕ) :=
  if ok n_clusters then
    let cluster_labels := kmeansLabels n_clusters
    if countsOK cluster_labels min_plants_per_zone then
      let score := if 1 < n_clusters then silhouette n_clusters else 0
      if st.1 < score then (score, some (cluster_labels, n_clusters)) else st
    else st
  else st

/-- Grouping of the plants by their labels into one bucket per center
(the source appends plants[i] to clusters[label]; bucket k in order is
the sublist of plants labelled k). -/
def groupByLabels (plants : List PlantData) (labels : List ℕ) (n : ℕ) :
    List (List PlantData) :=
  (List.range n).map (fun k =>
    ((plants.zip labels).filter (fun pl => decide (pl.2 = k))).map Prod.fst)

/-- ClusteringEngine.kmeans_clustering: single-cluster fallback below
the minimum, candidate counts 1..max_clusters scored and checked, best
candidate grouped, single-cluster fallback when nothing qualifies. -/
def kmeans_clustering (kmeansLabels : ℕ → List ℕ) (silhouette : ℕ → ℚ)
    (ok : ℕ → Bool) (plants : List PlantData)
    (max_zones min_plants_per_zone : ℕ) : List (List PlantData) :=
  if plants.length < min_plants_per_zone then [plants]
  else
    let max_clusters0 := min max_zones (plants.length / min_plants_per_zone)
    let max_clusters := if max_clusters0 < 1 then 1 else max_clusters0
    let best := (List.range' 1 max_clusters).foldl
      (candidateStep kmeansLabels silhouette ok min_plants_per_zone) (-1, none)
    match best.2 with
    | none => [plants]
    | some (cluster_labels, n) => groupByLabels plants cluster_labels n

/-- The adopted candidate of the selection loop, if any, comes from the
scanned range with its labelling and a passed minimum-count check. -/
theorem candidate_fold_invariant (kmeansLabels : ℕ → List ℕ) (silhouette : ℕ → ℚ)
    (ok : ℕ → Bool) (min_plants_per_zone mc : ℕ) :
    ∀ (l : List ℕ) (st : ℚ × Option (List ℕ × ℕ)),
      (∀ n ∈ l, 1 ≤ n ∧ n ≤ mc) →
      (∀ labels n, st.2 = some (labels, n) →
        1 ≤ n ∧ n ≤ mc ∧ labels = kmeansLabels n ∧
        countsOK labels min_plants_per_zone = true) →
      (∀ labels n, (l.foldl
          (candidateStep kmeansLabels silhouette ok min_plants_per_zone) st).2
            = some (labels, n) →
        1 ≤ n ∧ n ≤ mc ∧ labels = kmeansLabels n ∧
        countsOK labels min_plants_per_zone = true) := by
  intro l
  induction l with
  | nil => intro st _ hst; exact hst
  | cons m t ih =>
      intro st hmem hst
      refine ih _ (fun n hn => hmem n (List.mem_cons_of_mem m hn)) ?_
      intro labels n hsome
      simp only [candidateStep] at hsome
      by_cases hok : ok m = true
      · rw [if_pos hok] at hsome
        by_cases hcnt : countsOK (kmeansLabels m) min_plants_per_zone = true
        · rw [if_pos hcnt] at hsome
          by_cases hsc : st.1 < (if 1 < m then silhouette m else 0)
          · rw [if_pos hsc] at hsome
            have hpair : some (kmeansLabels m, m) = some (labels, n) := hsome
            have hpair2 : (kmeansLabels m, m) = (labels, n) := by injection hpair
            have hlab : labels = kmeansLabels m := by
              have := congrArg Prod.fst hpair2
              simpa using this.symm
            have hn : n = m := by
              have := congrArg Prod.snd hpair2
              simpa using this.symm
            subst hlab
            subst hn
            exact ⟨(hmem n (List.mem_cons_self n t)).1,
              (hmem n (List.mem_cons_self n t)).2, rfl, hcnt⟩
          · rw [if_neg hsc] at hsome
            exact hst labels n hsome
        · rw [if_neg hcnt] at hsome
          exact hst labels n hsome
      · rw [if_neg hok] at hsome
        exact hst labels n hsome

/-- Length of a zip-filter bucket equals the label count when the lists
have equal length. -/
theorem zip_filter_count : ∀ (ps : List PlantData) (ls : List ℕ) (k : ℕ),
    ps.length = ls.length →
    ((ps.zip ls).filter (fun pl => decide (pl.2 = k))).length = ls.count k := by
  intro ps
  induction ps with
  | nil =>
      intro ls k hl
      cases ls with
      | nil => simp
      | cons l lt => simp at hl
  | cons p pt ih =>
      intro ls k hl
      cases ls with
      | nil => simp at hl
      | cons l lt =>
          have hl2 : pt.length = lt.length := by simpa using hl
          by_cases hk : l = k
          · simp [hk, List.count_cons, ih lt k hl2]
          · simp [hk, List.count_cons, ih lt k hl2]

/-- C4: under the sklearn contract for the labelling (one label per
plant, labels below the cluster count, no empty cluster), the clustering
returns at most max_zones clusters with at least min_plants_per_zone
plants each, unless a single-cluster fallback containing all input
plants is returned. -/
theorem kmeans_clustering_bounds (kmeansLabels : ℕ → List ℕ)
    (silhouette : ℕ → ℚ) (ok : ℕ → Bool) (plants : List PlantData)
    (max_zones min_plants_per_zone : ℕ)
    (hmz : 1 ≤ max_zones) (hmp : 1 ≤ min_plants_per_zone)
    (hlen : ∀ n, 1 ≤ n → n ≤ max_zones → (kmeansLabels n).length = plants.length)
    (hlab : ∀ n, 1 ≤ n → n ≤ max_zones → ∀ l ∈ kmeansLabels n, l < n)
    (hsurj : ∀ n, 1 ≤ n → n ≤ max_zones → ∀ k, k < n → k ∈ kmeansLabels n) :
    kmeans_clustering kmeansLabels silhouette ok plants max_zones min_plants_per_zone
      = [plants] ∨
    ((kmeans_clustering kmeansLabels silhouette ok plants max_zones
        min_plants_per_zone).length ≤ max_zones ∧
     ∀ c ∈ kmeans_clustering kmeansLabels silhouette ok plants max_zones
        min_plants_per_zone, min_plants_per_zone ≤ c.length) := by
  by_cases hsmall : plants.length < min_plants_per_zone
  · left
    simp [kmeans_clustering, hsmall]
  · have hmc_le : (if min max_zones (plants.length / min_plants_per_zone) < 1 then 1
        else min max_zones (plants.length / min_plants_per_zone)) ≤ max_zones := by
      split
      · exact hmz
      · exact min_le_left _ _
    have hred : kmeans_clustering kmeansLabels silhouette ok plants max_zones
        min_plants_per_zone
        = match ((List.range' 1 (if min max_zones (plants.length / min_plants_per_zone) < 1
            then 1 else min max_zones (plants.length / min_plants_per_zone))).foldl
            (candidateStep kmeansLabels silhouette ok min_plants_per_zone) (-1, none)).2 with
          | none => [plants]
          | some (cluster_labels, n) => groupByLabels plants cluster_labels n := by
      simp only [kmeans_clustering, if_neg hsmall]
    have hinv := candidate_fold_invariant kmeansLabels silhouette ok min_plants_per_zone
      (if min max_zones (plants.length / min_plants_per_zone) < 1 then 1
        else min max_zones (plants.length / min_plants_per_zone))
      (List.range' 1 (if min max_zones (plants.length / min_plants_per_zone) < 1 then 1
        else min max_zones (plants.length / min_plants_per_zone)))
      (-1, none)
      (fun n hn => by
        rw [List.mem_range'_1] at hn
        exact ⟨hn.1, by omega⟩)
      (fun labels n h => by simp at h)
    rcases hbest : ((List.range' 1 (if min max_zones (plants.length / min_plants_per_zone) < 1
        then 1 else min max_zones (plants.length / min_plants_per_zone))).foldl
        (candidateStep kmeansLabels silhouette ok min_plants_per_zone) (-1, none)).2
      with _ | ⟨labels, n⟩
    · left
      rw [hred, hbest]
    · right
      obtain ⟨h1n, hnmc, hlabeq, hcnt⟩ := hinv labels n hbest
      have hn_mz : n ≤ max_zones := le_trans hnmc hmc_le
      rw [hred, hbest]
      constructor
      · simpa [groupByLabels] using hn_mz
      · intro c hc
        simp only [groupByLabels, List.mem_map] at hc
        obtain ⟨k, hk, rfl⟩ := hc
        rw [List.mem_range] at hk
        have hlen2 : labels.length = plants.length := by
          rw [hlabeq]
          exact hlen n h1n hn_mz
        rw [List.length_map, zip_filter_count plants labels k hlen2.symm]
        have hkmem : k ∈ labels := by
          rw [hlabeq]
          exact hsurj n h1n hn_mz k hk
        have h2 := List.all_eq_true.mp hcnt _ hkmem
        exact of_decide_eq_true h2

/-- Plant fixtures for the clustering witness. -/
def plantA : PlantData :=
  { plant_id := 1, x := 0, y := 0, water_needs := "moderate", area_m2 := 1,
    growth_stage := "vegetative", crop_coefficient := 8 / 10 }

def plantB : PlantData :=
  { plant_id := 2, x := 5, y := 5, water_needs := "high", area_m2 := 2,
    growth_stage := "vegetative", crop_coefficient := 1 }

/-- Labelling used to witness the clustering bounds: everything in one
cluster for one candidate, split otherwise. -/
def witnessKmeansLabels : ℕ → List ℕ := fun n => if n = 1 then [0, 0] else [0, 1]

/-- Witness for C4 at two plants, max_zones 2, minimum 1 per zone. -/
theorem kmeans_clustering_bounds_witness :
    kmeans_clustering witnessKmeansLabels (fun _ => 1 / 2) (fun _ => true)
      [plantA, plantB] 2 1 = [[plantA, plantB]] ∨
    ((kmeans_clustering witnessKmeansLabels (fun _ => 1 / 2) (fun _ => true)
        [plantA, plantB] 2 1).length ≤ 2 ∧
     ∀ c ∈ kmeans_clustering witnessKmeansLabels (fun _ => 1 / 2) (fun _ => true)
        [plantA, plantB] 2 1, 1 ≤ c.length) :=
  kmeans_clustering_bounds witnessKmeansLabels (fun _ => 1 / 2) (fun _ => true)
    [plantA, plantB] 2 1 (by norm_num) (by norm_num)
    (by
      intro n h1 h2
      have hn : n = 1 ∨ n = 2 := by omega
      rcases hn with rfl | rfl <;> with_unfolding_all decide)
    (by
      intro n h1 h2
      have hn : n = 1 ∨ n = 2 := by omega
      rcases hn with rfl | rfl <;> with_unfolding_all decide)
    (by
      intro n h1 h2
      have hn : n = 1 ∨ n = 2 := by omega
      rcases hn with rfl | rfl <;> with_unfolding_all decide)

/-! ## Equipment selection (clustering_engine.py, optimize_equipment_selection) -/

/-- Equipment categories, in the declaration order of the EquipmentType
enum of the schemas (list(EquipmentType) iterates in this order). -/
inductive EquipmentType where
  | drip
  | sprinkler
  | microjet
  | rotor
  | spray
deriving DecidableEq

def equipmentTypesAll : List EquipmentType :=
  [.drip, .sprinkler, .microjet, .rotor, .spray]

structure EquipmentEntry where
  name : String
  flow_rate_lph : ℚ
  spacing_m : ℚ
  cost_per_unit : ℚ
deriving DecidableEq

/-- Equipment catalog of the clustering engine; the dictionary has
entries for the drip, sprinkler and microjet categories only. -/
def equipment_database : EquipmentType → Option (List EquipmentEntry)
  | .drip => some
      [{ name := "Drip Emitter 2LPH", flow_rate_lph := 2, spacing_m := 3 / 10, cost_per_unit := 1 / 2 },
       { name := "Drip Emitter 4LPH", flow_rate_lph := 4, spacing_m := 4 / 10, cost_per_unit := 6 / 10 },
       { name := "Drip Emitter 8LPH", flow_rate_lph := 8, spacing_m := 1 / 2, cost_per_unit := 8 / 10 }]
  | .sprinkler => some
      [{ name := "Spray Head 360°", flow_rate_lph := 50, spacing_m := 3, cost_per_unit := 5 / 2 },
       { name := "Spray Head 180°", flow_rate_lph := 30, spacing_m := 5 / 2, cost_per_unit := 2 },
       { name := "Spray Head 90°", flow_rate_lph := 20, spacing_m := 2, cost_per_unit := 9 / 5 }]
  | .microjet => some
      [{ name := "Microjet 15LPH", flow_rate_lph := 15, spacing_m := 3 / 2, cost_per_unit := 6 / 5 },
       { name := "Microjet 25LPH", flow_rate_lph := 25, spacing_m := 2, cost_per_unit := 3 / 2 },
       { name := "Microjet 40LPH", flow_rate_lph := 40, spacing_m := 5 / 2, cost_per_unit := 2 }]
  | _ => none

/-- Water-needs factor table with default 1.0, applied to the lowercased
input string. -/
def waterNeedsFactor (water_needs : String) : ℚ :=
  if water_needs.toLower = "low" then 7 / 10
  else if water_needs.toLower = "moderate" then 1
  else if water_needs.toLower = "high" then 13 / 10
  else 1

/-- Inner iteration over one catalog entry: units needed are the ceiling
of area over the squared spacing; the entry is skipped when a nonzero
budget is exceeded; otherwise it is adopted when its total flow reaches
80 percent of the required flow and its cost beats the best so far
strictly (ties broken by larger coverage efficiency). -/
def equipmentInnerStep (zone_area_m2 required_flow_lph : ℚ) (budget_constraint : Option ℚ)
    (best : Option (EquipmentEntry × ℚ × ℚ)) (equipment : EquipmentEntry) :
    Option (EquipmentEntry × ℚ × ℚ) :=
  let coverage_per_unit := equipment.spacing_m * equipment.spacing_m
  let units_needed : ℤ := ⌈zone_area_m2 / coverage_per_unit⌉
  let total_flow := (units_needed : ℚ) * equipment.flow_rate_lph
  let total_cost := (units_needed : ℚ) * equipment.cost_per_unit
  if (match budget_constraint with
      | some b => decide (b ≠ 0) && decide (b < total_cost)
      | none => false) then best
  else if required_flow_lph * (8 / 10) ≤ total_flow then
    let coverage_efficiency := min 1 ((units_needed : ℚ) * coverage_per_unit / zone_area_m2)
    if (match best with
        | none => true
        | some (_, best_cost, best_coverage) =>
            decide (total_cost < best_cost) ||
            (decide (total_cost = best_cost) && decide (best_coverage < coverage_efficiency)))
    then some (equipment, total_cost, coverage_efficiency)
    else best
  else best

/-- Outer iteration over one category: the Python loop variable eq_type
is (re)bound on every iteration, also when the category is absent from
the catalog and the body is skipped with continue; the state records the
last bound value alongside the running best. -/
def equipmentOuterStep (zone_area_m2 required_flow_lph : ℚ) (budget_constraint : Option ℚ)
    (st : Option EquipmentType × Option (EquipmentEntry × ℚ × ℚ))
    (eq_type : EquipmentType) :
    Option EquipmentType × Option (EquipmentEntry × ℚ × ℚ) :=
  match equipment_database eq_type with
  | none => (some eq_type, st.2)
  | some entries =>
      (some eq_type,
        entries.foldl (equipmentInnerStep zone_area_m2 required_flow_lph budget_constraint) st.2)

structure EquipmentSelectionResult where
  equipment_name : String
  equipment_type : EquipmentType
  flow_rate_lph : ℚ
  spacing_m : ℚ
  cost_per_unit : ℚ
  coverage_radius_m : ℚ
  quantity_needed : ℤ
  total_cost : ℚ
  coverage_efficiency : ℚ
deriving DecidableEq

/-- ClusteringEngine.optimize_equipment_selection: the categories
scanned are the preferred one alone when given, else all enum members;
after the scan the result record copies every field from the winning
entry except equipment_type, which takes the final value of the stale
loop variable eq_type (the source bug under examination); the constant
manufacturer, model, pressure-range and id fields are omitted. -/
def optimize_equipment_selection (zone_area_m2 : ℚ) (water_needs : String)
    (budget_constraint : Option ℚ) (preferred_equipment_type : Option EquipmentType) :
    Except String EquipmentSelectionResult :=
  let water_factor := waterNeedsFactor water_needs
  let required_flow_lph := zone_area_m2 * 2 * water_factor
  let equipment_types := match preferred_equipment_type with
    | some t => [t]
    | none => equipmentTypesAll
  let st := equipment_types.foldl
    (equipmentOuterStep zone_area_m2 required_flow_lph budget_constraint) (none, none)
  match st.2 with
  | none => .error "No suitable equipment found for given constraints"
  | some (best_equipment, best_cost, best_coverage) =>
      match st.1 with
      | none => .error "eq_type never bound"
      | some eq_type =>
          let coverage_per_unit := best_equipment.spacing_m * best_equipment.spacing_m
          let units_needed : ℤ := ⌈zone_area_m2 / coverage_per_unit⌉
          .ok { equipment_name := best_equipment.name
                equipment_type := eq_type
                flow_rate_lph := best_equipment.flow_rate_lph
                spacing_m := best_equipment.spacing_m
                cost_per_unit := best_equipment.cost_per_unit
                coverage_radius_m := best_equipment.spacing_m / 2
                quantity_needed := units_needed
                total_cost := best_cost
                coverage_efficiency := best_coverage }

/-- C9: at zone area 1, low water needs, no budget and no preferred
type, the minimum-cost acceptable entry is Microjet 15LPH from the
microjet category, yet the returned equipment_type is spray, the last
member of the enum scanned by the loop: the stale loop variable, not the
winning category, fills the field. -/
theorem optimize_equipment_selection_type_mismatch :
    (optimize_equipment_selection 1 "low" none none).toOption.map
        (fun r => (r.equipment_name, r.equipment_type))
      = some ("Microjet 15LPH", EquipmentType.spray) ∧
    "Microjet 15LPH"
      ∈ ((equipment_database EquipmentType.microjet).getD []).map EquipmentEntry.name ∧
    EquipmentType.spray ≠ EquipmentType.microjet := by
  with_unfolding_all decide

/-! ## Mutation aliasing (agronomic_engine.py, PlacementOptimizer._mutate)

The source copies a candidate with individual.copy(), a shallow list
copy: the copy holds the same PlantPlacement objects, and
mutated[i].x += delta updates the object shared with the input list
(and with every other list that aliases it, such as the recorded
best_solution, itself an individual.copy()).  The embedding makes the
object store explicit: placements live in a store indexed by object id,
and a candidate is a list of object ids. -/

/-- In-place coordinate updates of _mutate: the i-th placement object of
the candidate is jittered when the i-th random draw falls under the 10
percent per-placement rate. -/
def mutateCoords : List (ℚ × ℚ) → List ℕ → List Bool → List (ℚ × ℚ) → List (ℚ × ℚ)
  | store, object_id :: ids, d :: ds, j :: js =>
      let store2 := if d then
        store.set object_id
          ((store.getD object_id (0, 0)).1 + j.1, (store.getD object_id (0, 0)).2 + j.2)
      else store
      mutateCoords store2 ids ds js
  | store, _, _, _ => store

/-- PlacementOptimizer._mutate: returns the shallow copy of the
candidate (the same object ids) together with the store updated in
place. -/
def mutate (store : List (ℚ × ℚ)) (individual : List ℕ)
    (decisions : List Bool) (jitters : List (ℚ × ℚ)) :
    List (ℚ × ℚ) × List ℕ :=
  (mutateCoords store individual decisions jitters, individual)

/-- Coordinates of a candidate as read through a store. -/
def readPlacement (store : List (ℚ × ℚ)) (ids : List ℕ) : List (ℚ × ℚ) :=
  ids.map (fun i => store.getD i (0, 0))

/-- C10: mutating the candidate [object 0] with the mutation branch
taken and jitter (0.5, 0.5) moves the shared placement object from
(0, 0) to (0.5, 0.5); the input candidate, and the previously recorded
best solution aliasing the same object, read the changed coordinates
through the updated store, so _mutate does not leave the input
candidate's coordinates unchanged. -/
theorem mutate_aliasing_counterexample :
    (mutate [((0 : ℚ), (0 : ℚ))] [0] [true] [(1 / 2, 1 / 2)]).2 = [0] ∧
    readPlacement [((0 : ℚ), (0 : ℚ))] [0] = [(0, 0)] ∧
    readPlacement (mutate [((0 : ℚ), (0 : ℚ))] [0] [true] [(1 / 2, 1 / 2)]).1 [0]
      = [(1 / 2, 1 / 2)] ∧
    readPlacement (mutate [((0 : ℚ), (0 : ℚ))] [0] [true] [(1 / 2, 1 / 2)]).1 [0]
      ≠ readPlacement [((0 : ℚ), (0 : ℚ))] [0] := by
  with_unfolding_all decide

end Spec2Proof
